import Mathlib

/-!
Shallow embedding of the synchronized dual-chart viewer: the viewport
model and gesture handlers of `src/src/App.tsx` and the `LineChart`
component (`src/unnamed/part_000`).  JavaScript numbers are modelled as
rationals; `Math.floor`, `Math.ceil` and `Math.round` become `Int.floor`,
`Int.ceil` and round-half-up on `ℚ`.  React `useState` setters become
explicit state transformers; a handler that returns early without calling
any setter is modelled as returning `none`.
-/

namespace ChartApp

/-- JavaScript `Math.round`: round half toward positive infinity. -/
def jsRound (x : ℚ) : ℤ := ⌊x + 1/2⌋

/-- The `Annotation` interface of `App.tsx` (id, value = data index, color). -/
structure Annotation where
  id : String
  value : ℚ
  color : String
deriving DecidableEq, Repr

/-- `ANNOTATION_COLORS` from `App.tsx` lines 30-39: the fixed 8-color palette. -/
def ANNOTATION_COLORS : List String :=
  ["#10B981", "#8B5CF6", "#F59E0B", "#EF4444", "#06B6D4", "#84CC16", "#F97316", "#EC4899"]

/-- The shared state held by the `App` component: the (fixed) length of the
two data series, the list of user annotations, the current-position marker
index, and the viewport pair `(zoom, panX)`. -/
structure AppState where
  data1Length : ℕ
  annotations : List Annotation
  currentPosition : ℚ
  zoom : ℚ
  panX : ℚ
deriving DecidableEq, Repr

/-- `handleAnnotationDrag` (`App.tsx` lines 49-66): map over the list, and for
the matching id store `max(0, min(data1.length - 1, round(value)))`. -/
def handleAnnotationDrag (s : AppState) (id : String) (value : ℚ) : AppState :=
  { s with
    annotations := s.annotations.map fun a =>
      if a.id = id then
        { a with value := ((max 0 (min ((s.data1Length : ℤ) - 1) (jsRound value)) : ℤ) : ℚ) }
      else a }

/-- `handleCurrentPositionDrag` (`App.tsx` lines 68-75). -/
def handleCurrentPositionDrag (s : AppState) (value : ℚ) : AppState :=
  { s with
    currentPosition := ((max 0 (min ((s.data1Length : ℤ) - 1) (jsRound value)) : ℤ) : ℚ) }

/-- `handleAddAnnotation` (`App.tsx` lines 77-89).  The id produced by the
code is the impure string `annotation-Date.now()`; it is taken as the
parameter `newId`. -/
def handleAddAnnotation (s : AppState) (newId : String) : AppState :=
  let visibleDataPoints : ℤ := ⌈(s.data1Length : ℚ) / s.zoom⌉
  let startIndex : ℤ := ⌊s.panX * ((s.data1Length : ℚ) - (visibleDataPoints : ℚ))⌋
  let centerPosition : ℤ := startIndex + ⌊(visibleDataPoints : ℚ) / 2⌋
  { s with
    annotations := s.annotations ++
      [{ id := newId, value := (centerPosition : ℚ),
         color := ANNOTATION_COLORS.getD (s.annotations.length % ANNOTATION_COLORS.length) "" }] }

/-- `handleInteractiveZoom` (`App.tsx` lines 91-125).  Returns `none` when the
handler returns early without writing any state (`newZoom === zoom`),
otherwise `some` of the state after `setZoom`/`setPanX`. -/
def handleInteractiveZoom (s : AppState) (delta centerX : ℚ) : Option AppState :=
  let zoomFactor : ℚ := if delta > 0 then 6/5 else 4/5
  let newZoom : ℚ := max 1 (min 10 (s.zoom * zoomFactor))
  if newZoom = s.zoom then none
  else
    let n : ℚ := (s.data1Length : ℚ)
    let visibleDataPoints : ℤ := ⌈n / s.zoom⌉
    let newVisibleDataPoints : ℤ := ⌈n / newZoom⌉
    let currentStartIndex : ℤ := ⌊s.panX * max 1 (n - (visibleDataPoints : ℚ))⌋
    let cursorRelativePosition : ℚ :=
      (centerX - (currentStartIndex : ℚ)) / (visibleDataPoints : ℚ)
    let newStartIndex : ℚ :=
      max 0 (min (n - (newVisibleDataPoints : ℚ))
        (centerX - (newVisibleDataPoints : ℚ) * cursorRelativePosition))
    let maxStartIndex : ℚ := max 1 (n - (newVisibleDataPoints : ℚ))
    let newPanX : ℚ := if maxStartIndex > 0 then newStartIndex / maxStartIndex else 0
    some { s with zoom := newZoom, panX := max 0 (min 1 newPanX) }

/-- `handleInteractivePan` (`App.tsx` lines 127-144).  Returns `none` when the
handler returns early (`maxStartIndex <= 0`), otherwise `some` of the state
after `setPanX`. -/
def handleInteractivePan (s : AppState) (deltaX : ℚ) : Option AppState :=
  let visibleDataPoints : ℤ := ⌈(s.data1Length : ℚ) / s.zoom⌉
  let maxStartIndex : ℤ := max 0 ((s.data1Length : ℤ) - visibleDataPoints)
  if maxStartIndex ≤ 0 then none
  else
    let currentStartIndex : ℤ := ⌊s.panX * (maxStartIndex : ℚ)⌋
    let newStartIndex : ℚ :=
      max 0 (min (maxStartIndex : ℚ) ((currentStartIndex : ℚ) + deltaX))
    some { s with panX := newStartIndex / (maxStartIndex : ℚ) }

/-- `handleReset` (`App.tsx` lines 146-150): writes only zoom, panX and
currentPosition. -/
def handleReset (s : AppState) : AppState :=
  { s with zoom := 2, panX := 1/2, currentPosition := 250 }

/-! ### LineChart viewport derivation (`part_000` lines 430-432) -/

/-- `Math.ceil(data.length / zoom)`. -/
def visibleDataPoints (dataLength : ℕ) (zoom : ℚ) : ℤ := ⌈(dataLength : ℚ) / zoom⌉

/-- `Math.floor(panX * (data.length - visibleDataPoints))`. -/
def startIndex (dataLength : ℕ) (zoom panX : ℚ) : ℤ :=
  ⌊panX * ((dataLength : ℚ) - (visibleDataPoints dataLength zoom : ℚ))⌋

/-- `startIndex + visibleDataPoints`. -/
def endIndex (dataLength : ℕ) (zoom panX : ℚ) : ℤ :=
  startIndex dataLength zoom panX + visibleDataPoints dataLength zoom

/-- The props a `LineChart` instance receives that feed its rendering
(`part_000` lines 33-47; display-only flags included to show the window
ignores them). -/
structure LineChartProps where
  data : List ℚ
  annotations : List Annotation
  currentPosition : ℚ
  zoom : ℚ
  panX : ℚ
  hideXAxis : Bool
  hideTitle : Bool
deriving DecidableEq, Repr

/-- The `(startIndex, endIndex)` window a `LineChart` instance computes from
its props (`part_000` lines 430-432), used as the x-scale `min`/`max`. -/
def chartWindow (p : LineChartProps) : ℤ × ℤ :=
  (startIndex p.data.length p.zoom p.panX, endIndex p.data.length p.zoom p.panX)

/-! ### LineChart gesture state and handlers (`part_000`) -/

/-- The `type` field of the `dragging` state: `"current"` or `"annotation"`. -/
inductive DragKind
  | current
  | annot
deriving DecidableEq, Repr

/-- The `dragging` useState payload: which marker is being dragged. -/
structure DragTarget where
  kind : DragKind
  id : String
deriving DecidableEq, Repr

/-- The custom tooltip useState payload (`part_000` lines 69-79). -/
structure Tooltip where
  visible : Bool
  x : ℚ
  y : ℚ
  content : String
deriving DecidableEq, Repr

/-- The result of `getClosestAnnotation` (`part_000` lines 94-129); the
display fields `name`/`value` are omitted (tooltip text only). -/
structure ClosestHit where
  kind : DragKind
  id : String
  position : ℚ
deriving DecidableEq, Repr

/-- The per-view gesture state of a `LineChart`: the `dragging`, `tooltip`,
`isPanning` and `panStartX` useStates plus the canvas cursor style. -/
structure ViewState where
  dragging : Option DragTarget
  tooltip : Tooltip
  isPanning : Bool
  panStartX : ℚ
  cursor : String
deriving DecidableEq, Repr

/-- The annotation loop of `getClosestAnnotation` (`part_000` lines 114-124):
first annotation in creation order within 10 data-index units of `dataX`. -/
def findAnnotationHit (dataX : ℚ) : List Annotation → Option ClosestHit
  | [] => none
  | a :: rest =>
    if |a.value - dataX| < 10 then some { kind := .annot, id := a.id, position := a.value }
    else findAnnotationHit dataX rest

/-- `getClosestAnnotation` (`part_000` lines 94-129), given the resolved data
coordinate `dataX`: the current-position marker is checked first, then the
annotations in creation order. -/
def getClosestAnnotation (dataX currentPosition : ℚ) (anns : List Annotation) :
    Option ClosestHit :=
  if |currentPosition - dataX| < 10 then
    some { kind := .current, id := "currentPosition", position := currentPosition }
  else
    findAnnotationHit dataX anns

/-- `handleMouseDown` (`part_000` lines 132-148): start a marker drag when a
marker is within tolerance. -/
def handleMouseDown (v : ViewState) (dataX currentPosition : ℚ)
    (anns : List Annotation) : ViewState :=
  match getClosestAnnotation dataX currentPosition anns with
  | some hit => { v with dragging := some { kind := hit.kind, id := hit.id },
                         cursor := "grabbing" }
  | none => v

/-- `handlePanStart` (`part_000` lines 256-273): start a pan session when no
marker is within tolerance. -/
def handlePanStart (v : ViewState) (dataX currentPosition : ℚ)
    (anns : List Annotation) (clientX : ℚ) : ViewState :=
  match getClosestAnnotation dataX currentPosition anns with
  | some _ => v
  | none => { v with isPanning := true, panStartX := clientX, cursor := "grabbing" }

/-- `handleCombinedMouseDown` (`part_000` lines 315-321): `handleMouseDown`
then `handlePanStart`. -/
def handleCombinedMouseDown (v : ViewState) (dataX currentPosition : ℚ)
    (anns : List Annotation) (clientX : ℚ) : ViewState :=
  handlePanStart (handleMouseDown v dataX currentPosition anns)
    dataX currentPosition anns clientX

/-- The dragging branch of `handleMouseMove` (`part_000` lines 158-174):
round and clamp the resolved `dataX`, then dispatch to the App callback for
the dragged marker. -/
def handleMouseMoveDrag (s : AppState) (dragging : DragTarget) (dataX : ℚ) : AppState :=
  let newValue : ℤ := max 0 (min ((s.data1Length : ℤ) - 1) (jsRound dataX))
  match dragging.kind with
  | .current => handleCurrentPositionDrag s (newValue : ℚ)
  | .annot => handleAnnotationDrag s dragging.id (newValue : ℚ)

/-- `handleMouseLeave` (`part_000` lines 222-230): clears `dragging`, resets
the cursor and hides the tooltip.  It does not touch `isPanning`. -/
def handleMouseLeave (v : ViewState) : ViewState :=
  { v with dragging := none, cursor := "default",
           tooltip := { visible := false, x := 0, y := 0, content := "" } }

/-- `handlePanEnd` (`part_000` lines 299-307): ends the pan session; wired to
mouse-up only (via `handleCombinedMouseUp`), not to mouse-leave. -/
def handlePanEnd (v : ViewState) : ViewState :=
  if v.isPanning then { v with isPanning := false, cursor := "default" } else v

/-! ### Theorems -/

/-- Claim C10: invoking the reset operation writes only zoom, panX and
currentPosition; the annotations list afterwards is exactly the one before,
and the data length is also untouched. -/
theorem reset_preserves_annotations (s : AppState) :
    ( handleReset s).annotations = s.annotations ∧
    ( handleReset s).data1Length = s.data1Length ∧
    ( handleReset s).zoom = 2 ∧
    ( handleReset s).panX = 1/2 ∧
    ( handleReset s).currentPosition = 250 :=
  ⟨rfl, rfl, rfl, rfl, rfl⟩

/-- Claim C2 (evaluation at the failing input): processing a mouse-leave
event while a pan session is active (`isPanning = true`) clears the marker
drag and the tooltip but leaves `isPanning = true` — the view does not
return to Idle, contradicting the claim that pointer-leave unconditionally
ends every gesture session. -/
theorem mouseLeave_keeps_pan_session_active :
    handleMouseLeave
      { dragging := some { kind := .current, id := "currentPosition" },
        tooltip := { visible := true, x := 3, y := 4, content := "t" },
        isPanning := true, panStartX := 42, cursor := "grabbing" } =
      { dragging := none,
        tooltip := { visible := false, x := 0, y := 0, content := "" },
        isPanning := true, panStartX := 42, cursor := "default" } := rfl

/-- Claim C9: the `(startIndex, endIndex)` window a chart view computes is a
deterministic function of the data length, zoomFactor and panFraction alone:
two `LineChart` instances agreeing on those three values compute the
identical window, whatever their other props are. -/
theorem chartWindow_deterministic (p q : LineChartProps)
    (hn : p.data.length = q.data.length) (hz : p.zoom = q.zoom)
    (hp : p.panX = q.panX) : chartWindow p = chartWindow q := by
  simp only [chartWindow, startIndex, endIndex, visibleDataPoints, hn, hz, hp]

/-- Witness for C9: two charts with different data values, different marker
props and different display flags but the same `(N, zoom, panX)` compute the
same window. -/
theorem chartWindow_deterministic_witness :
    chartWindow { data := [1, 2, 3], annotations := [], currentPosition := 0,
                  zoom := 2, panX := 1/2, hideXAxis := true, hideTitle := true } =
      chartWindow { data := [7, 8, 9],
                    annotations := [{ id := "a", value := 1, color := "#10B981" }],
                    currentPosition := 2, zoom := 2, panX := 1/2,
                    hideXAxis := false, hideTitle := false } :=
  chartWindow_deterministic _ _ rfl rfl rfl

/-- Claim C6: for `N ≥ 1`, `zoomFactor ∈ [1,10]` and `panFraction ∈ [0,1]`,
the derived `visibleCount = ceil(N / zoomFactor)` satisfies
`1 ≤ visibleCount ≤ N`, and `startIndex = floor(panFraction * (N - visibleCount))`
satisfies `0 ≤ startIndex ≤ N - visibleCount`, with `startIndex = 0` whenever
`visibleCount ≥ N`. -/
theorem viewport_derivation_bounds (dataLength : ℕ) (zoom panX : ℚ)
    (hN : 1 ≤ dataLength) (hz1 : 1 ≤ zoom) (hz10 : zoom ≤ 10)
    (hp0 : 0 ≤ panX) (hp1 : panX ≤ 1) :
    1 ≤ visibleDataPoints dataLength zoom ∧
    visibleDataPoints dataLength zoom ≤ (dataLength : ℤ) ∧
    0 ≤ startIndex dataLength zoom panX ∧
    startIndex dataLength zoom panX ≤
      (dataLength : ℤ) - visibleDataPoints dataLength zoom ∧
    ((dataLength : ℤ) ≤ visibleDataPoints dataLength zoom →
      startIndex dataLength zoom panX = 0) := by
  have hzpos : (0 : ℚ) < zoom := lt_of_lt_of_le one_pos hz1
  have hNpos : (0 : ℚ) < (dataLength : ℚ) := by exact_mod_cast Nat.pos_of_ne_zero (by omega)
  have h1 : 1 ≤ visibleDataPoints dataLength zoom := by
    have : 0 < visibleDataPoints dataLength zoom :=
      Int.ceil_pos.mpr (div_pos hNpos hzpos)
    omega
  have h2 : visibleDataPoints dataLength zoom ≤ (dataLength : ℤ) := by
    refine Int.ceil_le.mpr ?_
    push_cast
    exact div_le_self hNpos.le hz1
  have h2Q : ((visibleDataPoints dataLength zoom : ℤ) : ℚ) ≤ (dataLength : ℚ) := by
    exact_mod_cast h2
  have h3 : 0 ≤ startIndex dataLength zoom panX :=
    Int.floor_nonneg.mpr (mul_nonneg hp0 (sub_nonneg.mpr h2Q))
  have h4 : startIndex dataLength zoom panX ≤
      (dataLength : ℤ) - visibleDataPoints dataLength zoom := by
    have hx : panX * ((dataLength : ℚ) - (visibleDataPoints dataLength zoom : ℚ)) ≤
        (((dataLength : ℤ) - visibleDataPoints dataLength zoom : ℤ) : ℚ) := by
      push_cast
      exact mul_le_of_le_one_left (sub_nonneg.mpr h2Q) hp1
    calc startIndex dataLength zoom panX
        ≤ ⌊(((dataLength : ℤ) - visibleDataPoints dataLength zoom : ℤ) : ℚ)⌋ :=
          Int.floor_le_floor hx
      _ = (dataLength : ℤ) - visibleDataPoints dataLength zoom := Int.floor_intCast _
  refine ⟨h1, h2, h3, h4, fun hge => ?_⟩
  have heq : ((dataLength : ℚ) - (visibleDataPoints dataLength zoom : ℚ)) = 0 := by
    have : visibleDataPoints dataLength zoom = (dataLength : ℤ) := le_antisymm h2 hge
    rw [this]
    push_cast
    ring
  simp [startIndex, heq]

/-- Witness for C6 at `N = 500`, `zoom = 2`, `panX = 1/2`. -/
theorem viewport_derivation_bounds_witness :
    ((1 : ℕ) ≤ 500 ∧ (1 : ℚ) ≤ 2 ∧ (2 : ℚ) ≤ 10 ∧ (0 : ℚ) ≤ 1/2 ∧ (1/2 : ℚ) ≤ 1) ∧
    (1 ≤ visibleDataPoints 500 2 ∧
     visibleDataPoints 500 2 ≤ (500 : ℤ) ∧
     0 ≤ startIndex 500 2 (1/2) ∧
     startIndex 500 2 (1/2) ≤ (500 : ℤ) - visibleDataPoints 500 2 ∧
     ((500 : ℤ) ≤ visibleDataPoints 500 2 → startIndex 500 2 (1/2) = 0)) :=
  ⟨by norm_num,
   viewport_derivation_bounds 500 2 (1/2) (by norm_num) (by norm_num)
     (by norm_num) (by norm_num) (by norm_num)⟩

/-- Claim C5: at the zoom clamp bounds the zoom handler is a no-op that
performs no state write (the handler returns before calling any setter):
a zoom-in request at `zoomFactor = 10` and a zoom-out request at
`zoomFactor = 1` both return `none`, so the applied state is unchanged. -/
theorem zoom_noop_at_clamp_bounds (s : AppState) (delta centerX : ℚ) :
    (s.zoom = 10 → 0 < delta →
      handleInteractiveZoom s delta centerX = none ∧
      (handleInteractiveZoom s delta centerX).getD s = s) ∧
    (s.zoom = 1 → delta ≤ 0 →
      handleInteractiveZoom s delta centerX = none ∧
      (handleInteractiveZoom s delta centerX).getD s = s) := by
  constructor
  · intro hz hd
    have hnone : handleInteractiveZoom s delta centerX = none := by
      unfold handleInteractiveZoom
      rw [if_pos hd]
      rw [if_pos]
      rw [hz]
      norm_num
    exact ⟨hnone, by rw [hnone]; rfl⟩
  · intro hz hd
    have hnone : handleInteractiveZoom s delta centerX = none := by
      unfold handleInteractiveZoom
      rw [if_neg (not_lt.mpr hd)]
      rw [if_pos]
      rw [hz]
      norm_num
    exact ⟨hnone, by rw [hnone]; rfl⟩

/-- Witness for C5: zoom-in at zoom 10 and zoom-out at zoom 1 on concrete
states. -/
theorem zoom_noop_at_clamp_bounds_witness :
    handleInteractiveZoom
        { data1Length := 500, annotations := [], currentPosition := 250,
          zoom := 10, panX := 1/3 } 1 250 = none ∧
    handleInteractiveZoom
        { data1Length := 500, annotations := [], currentPosition := 250,
          zoom := 1, panX := 1/3 } (-1) 250 = none :=
  ⟨((zoom_noop_at_clamp_bounds _ 1 250).1 rfl (by norm_num)).1,
   ((zoom_noop_at_clamp_bounds _ (-1) 250).2 rfl (by norm_num)).1⟩

/-- Claim C4: with `visibleCount = ceil(N / zoom)` and
`maxStart = max(0, N - visibleCount)`, the pan handler is a no-op (`none`,
no state write) when `maxStart = 0`; otherwise it stores
`newPan = clamp(floor(currentPan * maxStart) + indexDelta, 0, maxStart) / maxStart`,
which lies in `[0, 1]`, and touches nothing else. -/
theorem pan_contract (s : AppState) (deltaX : ℚ) (maxStart : ℤ)
    (hms : maxStart = max 0 ((s.data1Length : ℤ) - visibleDataPoints s.data1Length s.zoom))
    (hz1 : 1 ≤ s.zoom) (hz10 : s.zoom ≤ 10) (hp0 : 0 ≤ s.panX) (hp1 : s.panX ≤ 1) :
    (maxStart = 0 → handleInteractivePan s deltaX = none) ∧
    (0 < maxStart → ∃ s', handleInteractivePan s deltaX = some s' ∧
      s'.panX = max 0 (min (maxStart : ℚ)
          ((⌊s.panX * (maxStart : ℚ)⌋ : ℚ) + deltaX)) / (maxStart : ℚ) ∧
      0 ≤ s'.panX ∧ s'.panX ≤ 1 ∧
      s'.zoom = s.zoom ∧ s'.annotations = s.annotations ∧
      s'.currentPosition = s.currentPosition ∧ s'.data1Length = s.data1Length) := by
  constructor
  · intro h0
    unfold handleInteractivePan
    rw [if_pos]
    rw [show (⌈(s.data1Length : ℚ) / s.zoom⌉ : ℤ) = visibleDataPoints s.data1Length s.zoom
      from rfl, ← hms, h0]
  · intro hpos
    refine ⟨{ s with panX := max 0 (min (maxStart : ℚ)
        ((⌊s.panX * (maxStart : ℚ)⌋ : ℚ) + deltaX)) / (maxStart : ℚ) },
      ?_, rfl, ?_, ?_, rfl, rfl, rfl, rfl⟩
    · unfold handleInteractivePan
      rw [if_neg]
      · rw [show (⌈(s.data1Length : ℚ) / s.zoom⌉ : ℤ) = visibleDataPoints s.data1Length s.zoom
          from rfl, ← hms]
      · rw [show (⌈(s.data1Length : ℚ) / s.zoom⌉ : ℤ) = visibleDataPoints s.data1Length s.zoom
          from rfl, ← hms]
        omega
    · have h0Q : (0 : ℚ) ≤ (maxStart : ℚ) := by exact_mod_cast hpos.le
      exact div_nonneg (le_max_left _ _) h0Q
    · have hposQ : (0 : ℚ) < (maxStart : ℚ) := by exact_mod_cast hpos
      rw [div_le_one hposQ]
      exact max_le hposQ.le (min_le_left _ _)

/-- Witness for C4 at `N = 500`, `zoom = 2`, `panX = 1/2`, `indexDelta = 10`
(so `maxStart = 250 > 0`): the pan handler stores a value in `[0, 1]`. -/
theorem pan_contract_witness :
    ((250 : ℤ) =
        max 0 ((500 : ℤ) - visibleDataPoints 500 2) ∧ (0 : ℤ) < 250) ∧
    (∃ s', handleInteractivePan
        { data1Length := 500, annotations := [], currentPosition := 250,
          zoom := 2, panX := 1/2 } 10 = some s' ∧
      s'.panX = max 0 (min ((250 : ℤ) : ℚ)
          ((⌊(1/2 : ℚ) * ((250 : ℤ) : ℚ)⌋ : ℚ) + 10)) / ((250 : ℤ) : ℚ) ∧
      0 ≤ s'.panX ∧ s'.panX ≤ 1 ∧
      s'.zoom = 2 ∧ s'.annotations = [] ∧
      s'.currentPosition = 250 ∧ s'.data1Length = 500) := by
  have hms : (250 : ℤ) = max 0 ((500 : ℤ) - visibleDataPoints 500 2) := by
    norm_num [visibleDataPoints]
  exact ⟨⟨hms, by norm_num⟩,
    (pan_contract
        { data1Length := 500, annotations := [], currentPosition := 250,
          zoom := 2, panX := 1/2 } 10 250 hms (by norm_num) (by norm_num)
        (by norm_num) (by norm_num)).2 (by norm_num)⟩

/-- Claim C8: adding an annotation appends a marker whose value is
`startIndex + floor(visibleCount / 2)` for the current viewport and whose
color is the palette entry at index `k mod 8` where `k` is the existing
annotation count; concretely, with `N = 500`, `zoom = 5`, `panX = 1/4`
(so `startIndex = 100`, `visibleCount = 100`) the new marker lands on
index `150` and takes palette color 0. -/
theorem addMarker_center_and_palette (s : AppState) (newId : String) :
    ( handleAddAnnotation s newId).annotations = s.annotations ++
      [{ id := newId,
         value := ((startIndex s.data1Length s.zoom s.panX +
           ⌊(visibleDataPoints s.data1Length s.zoom : ℚ) / 2⌋ : ℤ) : ℚ),
         color := ANNOTATION_COLORS.getD (s.annotations.length % 8) "" }] ∧
    startIndex 500 5 (1/4) = 100 ∧ visibleDataPoints 500 5 = 100 ∧
    ( handleAddAnnotation
        { data1Length := 500, annotations := [], currentPosition := 250,
          zoom := 5, panX := 1/4 } newId).annotations =
      [{ id := newId, value := 150, color := "#10B981" }] := by
  have hvdp : visibleDataPoints 500 5 = 100 := by
    norm_num [visibleDataPoints]
  have hsi : startIndex 500 5 (1/4) = 100 := by
    rw [startIndex, hvdp]
    norm_num [Int.floor_eq_iff]
  refine ⟨rfl, hsi, hvdp, ?_⟩
  show ([] : List Annotation) ++
      [{ id := newId,
         value := ((startIndex 500 5 (1/4) + ⌊(visibleDataPoints 500 5 : ℚ) / 2⌋ : ℤ) : ℚ),
         color := ANNOTATION_COLORS.getD (0 % 8) "" }] =
    [{ id := newId, value := 150, color := "#10B981" }]
  rw [hsi, hvdp]
  norm_num [ANNOTATION_COLORS, Int.floor_eq_iff]

/-- The annotation loop of `getClosestAnnotation` is first-match search over
the annotations in creation order. -/
theorem findHit_eq_find (dataX : ℚ) (anns : List Annotation) :
    ( findAnnotationHit dataX anns).map
        (fun h => (({ kind := h.kind, id := h.id } : DragTarget), h.position)) =
      (anns.map fun a =>
        (({ kind := .annot, id := a.id } : DragTarget), a.value)).find?
        (fun m => decide (|m.2 - dataX| < 10)) := by
  induction anns with
  | nil => rfl
  | cons a rest ih =>
    simp only [ findAnnotationHit, List.map_cons]
    by_cases h : |a.value - dataX| < 10
    · rw [if_pos h, List.find?_cons_of_pos _ (by simpa using h)]
      rfl
    · rw [if_neg h, List.find?_cons_of_neg _ (by simpa using h)]
      exact ih

/-- `getClosestAnnotation` is first-match search over the current-position
marker followed by the annotations in creation order. -/
theorem getClosest_eq_find (dataX cp : ℚ) (anns : List Annotation) :
    ( getClosestAnnotation dataX cp anns).map
        (fun h => (({ kind := h.kind, id := h.id } : DragTarget), h.position)) =
      ((({ kind := .current, id := "currentPosition" } : DragTarget), cp) ::
        anns.map fun a =>
          (({ kind := .annot, id := a.id } : DragTarget), a.value)).find?
        (fun m => decide (|m.2 - dataX| < 10)) := by
  by_cases h : |cp - dataX| < 10
  · rw [ getClosestAnnotation, if_pos h, List.find?_cons_of_pos _ (by simpa using h)]
    rfl
  · rw [ getClosestAnnotation, if_neg h, List.find?_cons_of_neg _ (by simpa using h)]
    exact findHit_eq_find dataX anns

/-- Combined mouse-down when no marker is within tolerance: a pan session
starts. -/
theorem combinedMouseDown_of_none (v : ViewState) (dataX cp clientX : ℚ)
    (anns : List Annotation)
    (h : getClosestAnnotation dataX cp anns = none) :
    handleCombinedMouseDown v dataX cp anns clientX =
      { v with isPanning := true, panStartX := clientX, cursor := "grabbing" } := by
  unfold handleCombinedMouseDown handleMouseDown handlePanStart
  rw [h]

/-- Combined mouse-down when a marker is within tolerance: a marker drag
starts and no pan session starts. -/
theorem combinedMouseDown_of_some (v : ViewState) (dataX cp clientX : ℚ)
    (anns : List Annotation) (hit : ClosestHit)
    (h : getClosestAnnotation dataX cp anns = some hit) :
    handleCombinedMouseDown v dataX cp anns clientX =
      { v with dragging := some { kind := hit.kind, id := hit.id },
               cursor := "grabbing" } := by
  unfold handleCombinedMouseDown handleMouseDown handlePanStart
  rw [h]

/-- Claim C7: on pointer-down with resolved data coordinate `dataX`, the
drag target is the first marker — current-position marker first, then the
annotations in creation order — whose index is within 10 data-index units of
`dataX` (a constant tolerance, independent of zoom); when some marker is
within tolerance a marker drag starts and no pan session starts, and when
none is, a pan session starts recording the anchor pixel X. -/
theorem mouseDown_selects_first_marker (v : ViewState)
    (dataX cp clientX : ℚ) (anns : List Annotation) :
    (∀ t : DragTarget, ∀ pos : ℚ,
      ((({ kind := .current, id := "currentPosition" } : DragTarget), cp) ::
        anns.map fun a =>
          (({ kind := .annot, id := a.id } : DragTarget), a.value)).find?
        (fun m => decide (|m.2 - dataX| < 10)) = some (t, pos) →
      (handleCombinedMouseDown v dataX cp anns clientX).dragging = some t ∧
      (handleCombinedMouseDown v dataX cp anns clientX).isPanning = v.isPanning ∧
      (handleCombinedMouseDown v dataX cp anns clientX).panStartX = v.panStartX) ∧
    (((({ kind := .current, id := "currentPosition" } : DragTarget), cp) ::
        anns.map fun a =>
          (({ kind := .annot, id := a.id } : DragTarget), a.value)).find?
        (fun m => decide (|m.2 - dataX| < 10)) = none →
      (handleCombinedMouseDown v dataX cp anns clientX).dragging = v.dragging ∧
      (handleCombinedMouseDown v dataX cp anns clientX).isPanning = true ∧
      (handleCombinedMouseDown v dataX cp anns clientX).panStartX = clientX) := by
  have hfind := getClosest_eq_find dataX cp anns
  rcases hc : getClosestAnnotation dataX cp anns with _ | hit
  · rw [hc, Option.map_none'] at hfind
    constructor
    · intro t pos hm
      rw [← hfind] at hm
      cases hm
    · intro _
      rw [combinedMouseDown_of_none v dataX cp clientX anns hc]
      exact ⟨rfl, rfl, rfl⟩
  · rw [hc, Option.map_some'] at hfind
    constructor
    · intro t pos hm
      rw [← hfind] at hm
      have ht : ({ kind := hit.kind, id := hit.id } : DragTarget) = t :=
        congrArg Prod.fst (Option.some.inj hm)
      rw [combinedMouseDown_of_some v dataX cp clientX anns hit hc, ht]
      exact ⟨rfl, rfl, rfl⟩
    · intro hm
      rw [← hfind] at hm
      cases hm

/-- Witness for C7: from Idle, a pointer-down at `dataX = 245` with the
current-position marker at 250 (within tolerance) starts a marker drag and
no pan session; a pointer-down at `dataX = 0` with no marker within
tolerance starts a pan session recording the anchor pixel X. -/
theorem mouseDown_selects_first_marker_witness :
    ((handleCombinedMouseDown
        { dragging := none, tooltip := { visible := false, x := 0, y := 0, content := "" },
          isPanning := false, panStartX := 0, cursor := "default" }
        245 250 [] 7).dragging =
          some { kind := .current, id := "currentPosition" } ∧
     (handleCombinedMouseDown
        { dragging := none, tooltip := { visible := false, x := 0, y := 0, content := "" },
          isPanning := false, panStartX := 0, cursor := "default" }
        245 250 [] 7).isPanning = false ∧
     (handleCombinedMouseDown
        { dragging := none, tooltip := { visible := false, x := 0, y := 0, content := "" },
          isPanning := false, panStartX := 0, cursor := "default" }
        245 250 [] 7).panStartX = 0) ∧
    ((handleCombinedMouseDown
        { dragging := none, tooltip := { visible := false, x := 0, y := 0, content := "" },
          isPanning := false, panStartX := 0, cursor := "default" }
        0 250 [] 7).dragging = none ∧
     (handleCombinedMouseDown
        { dragging := none, tooltip := { visible := false, x := 0, y := 0, content := "" },
          isPanning := false, panStartX := 0, cursor := "default" }
        0 250 [] 7).isPanning = true ∧
     (handleCombinedMouseDown
        { dragging := none, tooltip := { visible := false, x := 0, y := 0, content := "" },
          isPanning := false, panStartX := 0, cursor := "default" }
        0 250 [] 7).panStartX = 7) :=
  ⟨(mouseDown_selects_first_marker _ 245 250 7 []).1
      { kind := .current, id := "currentPosition" } 250
      (List.find?_cons_of_pos _ (by norm_num [abs_sub_lt_iff])),
   (mouseDown_selects_first_marker _ 0 250 7 []).2
      (by rw [List.map_nil, List.find?_cons_of_neg _ (by norm_num [abs_sub_lt_iff])]; rfl)⟩

/-- A stored marker index is an integer in `[0, N-1]`. -/
def markerIndexOK (dataLength : ℕ) (v : ℚ) : Prop :=
  ∃ k : ℤ, v = (k : ℚ) ∧ 0 ≤ k ∧ k ≤ (dataLength : ℤ) - 1

/-- Every marker of the state — the current-position marker and every
annotation — holds an integer index in `[0, N-1]`. -/
def markersInRange (s : AppState) : Prop :=
  markerIndexOK s.data1Length s.currentPosition ∧
  ∀ a ∈ s.annotations, markerIndexOK s.data1Length a.value

/-- The round-and-clamp performed by every marker update path lands in
`[0, N-1]` whenever `N ≥ 1`, whatever the raw input. -/
theorem clamp_markerIndexOK (dataLength : ℕ) (hn : 1 ≤ dataLength) (r : ℤ) :
    markerIndexOK dataLength ((max 0 (min ((dataLength : ℤ) - 1) r) : ℤ) : ℚ) := by
  refine ⟨max 0 (min ((dataLength : ℤ) - 1) r), rfl, le_max_left _ _, ?_⟩
  have h1 : (1 : ℤ) ≤ (dataLength : ℤ) := by exact_mod_cast hn
  omega

/-- A single drag-move step never changes the data length. -/
theorem handleMouseMoveDrag_data1Length (s : AppState) (t : DragTarget) (x : ℚ) :
    (handleMouseMoveDrag s t x).data1Length = s.data1Length := by
  cases h : t.kind <;> simp [handleMouseMoveDrag, h, handleCurrentPositionDrag,
    handleAnnotationDrag]

/-- A single drag-move step preserves the marker-range invariant. -/
theorem handleMouseMoveDrag_preserves (s : AppState) (hn : 1 ≤ s.data1Length)
    (hs : markersInRange s) (t : DragTarget) (x : ℚ) :
    markersInRange (handleMouseMoveDrag s t x) := by
  obtain ⟨hcp, hanns⟩ := hs
  cases hk : t.kind
  · refine ⟨?_, ?_⟩
    · simp only [handleMouseMoveDrag, hk, handleCurrentPositionDrag]
      exact clamp_markerIndexOK s.data1Length hn _
    · intro a ha
      simp only [handleMouseMoveDrag, hk, handleCurrentPositionDrag] at ha ⊢
      exact hanns a ha
  · refine ⟨?_, ?_⟩
    · simp only [handleMouseMoveDrag, hk, handleAnnotationDrag]
      exact hcp
    · intro a ha
      simp only [handleMouseMoveDrag, hk, handleAnnotationDrag, List.mem_map] at ha
      obtain ⟨b, hb, hba⟩ := ha
      by_cases hid : b.id = t.id
      · rw [if_pos hid] at hba
        rw [← hba]
        simp only [handleMouseMoveDrag, hk, handleAnnotationDrag]
        exact clamp_markerIndexOK s.data1Length hn _
      · rw [if_neg hid] at hba
        rw [← hba]
        simp only [handleMouseMoveDrag, hk, handleAnnotationDrag]
        exact hanns b hb

/-- Claim C3: for every sequence of drag-move events with arbitrary
rational pixel-derived inputs (including values far outside `[0, N-1]`),
the current-position marker and every annotation keep integer indices in
`[0, N-1]`: every marker update path rounds the incoming value and clamps
it to `[0, data.length - 1]` before storing. -/
theorem dragMoves_keep_markers_in_range (s : AppState) (hn : 1 ≤ s.data1Length)
    (hs : markersInRange s) (events : List (DragTarget × ℚ)) :
    markersInRange
      (events.foldl (fun t e => handleMouseMoveDrag t e.1 e.2) s) := by
  induction events generalizing s with
  | nil => exact hs
  | cons e rest ih =>
    rw [List.foldl_cons]
    exact ih (handleMouseMoveDrag s e.1 e.2)
      (by rw [handleMouseMoveDrag_data1Length]; exact hn)
      (handleMouseMoveDrag_preserves s hn hs e.1 e.2)

/-- Witness for C3: starting from the default state with one annotation,
dragging the current-position marker to `10^9` and the annotation to
`-12345.6` keeps every marker integer and in `[0, 499]`. -/
theorem dragMoves_keep_markers_in_range_witness :
    markersInRange
      (([({ kind := .current, id := "currentPosition" }, (1000000000 : ℚ)),
         ({ kind := .annot, id := "a1" }, (-123456/10 : ℚ))] :
        List (DragTarget × ℚ)).foldl
        (fun t e => handleMouseMoveDrag t e.1 e.2)
        { data1Length := 500,
          annotations := [{ id := "a1", value := 100, color := "#10B981" }],
          currentPosition := 250, zoom := 2, panX := 1/2 }) :=
  dragMoves_keep_markers_in_range _ (by norm_num)
    ⟨⟨250, by norm_num, by norm_num, by norm_num⟩, by
      intro a ha
      simp only [List.mem_singleton] at ha
      rw [ha]
      exact ⟨100, by norm_num, by norm_num, by norm_num⟩⟩ _

/-- Claim C1: zoom anchoring for `N = 500`, `zoom = 2`, `pan = 1/2`
(visible window `[125, 375)`) with a zoom-in anchored at cursor data index
250.  The cursor's relative position in the old window is
`(250 - 125) / 250 = 1/2`; the handler returns `(newZoom, newPan) = (12/5, 1/2)`,
whose derived window has `visibleCount = 209` and `startIndex = 145`, and
`|(250 - 145) / 209 - 1/2| * 209 = 1/2 ≤ 1`: index 250 stays within ±1 index
of its previous relative position. -/
theorem zoom_anchoring_at_center (delta : ℚ) (hd : 0 < delta) :
    ∃ s', handleInteractiveZoom
        { data1Length := 500, annotations := [], currentPosition := 250,
          zoom := 2, panX := 1/2 } delta 250 = some s' ∧
      s'.zoom = 12/5 ∧ s'.panX = 1/2 ∧
      visibleDataPoints 500 s'.zoom = 209 ∧
      startIndex 500 s'.zoom s'.panX = 145 ∧
      |((250 : ℚ) - (startIndex 500 s'.zoom s'.panX : ℚ)) /
          (visibleDataPoints 500 s'.zoom : ℚ) - 1/2| *
        (visibleDataPoints 500 s'.zoom : ℚ) ≤ 1 := by
  have hvdp : visibleDataPoints 500 (12/5) = 209 := by
    unfold visibleDataPoints
    push_cast
    norm_num [Int.ceil_eq_iff]
  have hsi : startIndex 500 (12/5) (1/2) = 145 := by
    unfold startIndex visibleDataPoints
    push_cast
    have h3 : (⌈(500:ℚ)/(12/5)⌉ : ℤ) = 209 := by norm_num [Int.ceil_eq_iff]
    rw [h3]
    push_cast
    norm_num [Int.floor_eq_iff]
  refine ⟨{ data1Length := 500, annotations := [], currentPosition := 250,
            zoom := 12/5, panX := 1/2 }, ?_, rfl, rfl, hvdp, hsi, ?_⟩
  · unfold handleInteractiveZoom
    rw [if_pos hd]
    rw [if_neg]
    · dsimp only
      push_cast
      have h1 : max (1:ℚ) (min 10 (2 * (6/5))) = 12/5 := by norm_num
      rw [h1]
      have h2 : (⌈(500:ℚ)/2⌉ : ℤ) = 250 := by norm_num
      rw [h2]
      have h3 : (⌈(500:ℚ)/(12/5)⌉ : ℤ) = 209 := by norm_num [Int.ceil_eq_iff]
      rw [h3]
      have h4 : (⌊(1/2 : ℚ) * max 1 ((500:ℚ) - ((250:ℤ):ℚ))⌋) = 125 := by
        push_cast
        norm_num [Int.floor_eq_iff]
      rw [h4]
      norm_num
    · dsimp only
      norm_num
  · rw [hvdp, hsi]
    push_cast
    have h : ((250 : ℚ) - 145) / 209 - 1/2 = 1/418 := by norm_num
    rw [h, abs_of_nonneg (by norm_num)]
    norm_num

/-- Witness for C1 at `delta = 1`. -/
theorem zoom_anchoring_at_center_witness :
    (0 : ℚ) < 1 ∧
    ∃ s', handleInteractiveZoom
        { data1Length := 500, annotations := [], currentPosition := 250,
          zoom := 2, panX := 1/2 } 1 250 = some s' ∧
      s'.zoom = 12/5 ∧ s'.panX = 1/2 ∧
      visibleDataPoints 500 s'.zoom = 209 ∧
      startIndex 500 s'.zoom s'.panX = 145 ∧
      |((250 : ℚ) - (startIndex 500 s'.zoom s'.panX : ℚ)) /
          (visibleDataPoints 500 s'.zoom : ℚ) - 1/2| *
        (visibleDataPoints 500 s'.zoom : ℚ) ≤ 1 :=
  ⟨by norm_num, zoom_anchoring_at_center 1 (by norm_num)⟩

end ChartApp
